import Mathlib

/-!
Verification of the n8n-nodes-smb2 node package.

This file gives a shallow embedding, in Lean, of the logic of the
repository that the claims under scrutiny talk about:

* the static SMB status-code table `SMB_ERROR_CODES` and the
  `getReadableError` translation function (src/nodes/Smb2/helpers.ts and
  the identical copy in src/nodes/SMB2/Smb2.node.ts);
* the `renameFile` monkey patch on Tree (src/nodes/Smb2/helpers.ts);
* the per-item execute loop of the Smb2 node, its continue-on-fail
  policy and its outer catch block (src/nodes/SMB2/Smb2.node.ts);
* the upload branch with its content checks and the overwrite
  check-then-act sequence (src/nodes/SMB2/Smb2.node.ts);
* `formatEntry` (src/nodes/SMB2/Smb2.node.ts);
* the change-type map and emit filter of the trigger node
  (src/nodes/Smb2Trigger/Smb2Trigger.node.ts).

JavaScript-specific behaviour that the claims depend on (truthiness of
numbers and strings in a chained or-expression, object-key string
coercion on table lookup, an exception raised inside a catch block
replacing the exception being rethrown) is modelled explicitly.
-/

namespace Smb2

/-! ## The static error table, from SMB_ERROR_CODES in helpers.ts lines 25-42
    (the copy in Smb2.node.ts lines 20-37 is character-identical). -/

/-- The numeric status-code to message table, verbatim from the source. -/
def SMB_ERROR_CODES : List (Nat × String) := [
  (3221225525, "Access Denied - Check your permissions for this file/folder"),
  (3221225506, "File/Path Not Found"),
  (3221225514, "Invalid Parameter"),
  (3221225485, "Sharing Violation - File is in use by another process"),
  (3221225524, "Object Name Invalid"),
  (3221225534, "Not Enough Quota"),
  (3221225581, "Logon Failure - Check your username, password, and domain"),
  (3221226036, "Bad Network Name - The specified share does not exist on the server"),
  (2147942402, "Network Name Not Found - Share does not exist"),
  (2147942405, "Network Path Not Found"),
  (5, "Access Denied"),
  (32, "Sharing Violation"),
  (53, "Network Path Not Found"),
  (67, "Network Name Not Found"),
  (87, "Invalid Parameter"),
  (1314, "Network Error")]

/-- Lookup of a numeric code in the table. -/
def lookupCode (n : Nat) : Option String :=
  (SMB_ERROR_CODES.find? (fun p => p.1 == n)).map Prod.snd

/-! ## JavaScript error values, as getReadableError inspects them. -/

/-- A JavaScript error code is either a number (SMB status, errno) or a
    string (Node transport codes such as ECONNREFUSED). -/
inductive CodeVal where
  | num (n : Nat)
  | str (s : String)
deriving DecidableEq

/-- The fields of a JavaScript error object that getReadableError reads.
    none models an absent (undefined) field; strRepr models the result
    of the String(error) conversion used as last fallback. -/
structure JsError where
  headerStatus : Option Nat
  code : Option CodeVal
  errno : Option Nat
  message : Option String
  strRepr : String
deriving DecidableEq

/-- JavaScript truthiness of an optional number: 0 and undefined are falsy. -/
def natTruthy : Option Nat → Bool
  | some n => n != 0
  | none => false

/-- JavaScript truthiness of an optional code value. -/
def codeTruthy : Option CodeVal → Bool
  | some (CodeVal.num n) => n != 0
  | some (CodeVal.str s) => s != ""
  | none => false

/-- JavaScript truthiness of an optional string: the empty string is falsy. -/
def msgTruthy : Option String → Bool
  | some s => s != ""
  | none => false

/-- The chained or-expression
    error.header?.status || error.code || error.errno
    from helpers.ts line 47: first truthy operand, else the last operand
    (which may itself be absent). -/
def derivedCode (e : JsError) : Option CodeVal :=
  if natTruthy e.headerStatus then e.headerStatus.map CodeVal.num
  else if codeTruthy e.code then e.code
  else e.errno.map CodeVal.num

/-- Table lookup keyed by a code value. A JavaScript object coerces the
    key to a string, so a numeric key hits directly and a string key
    hits when it is the decimal spelling of a stored numeric key. -/
def tableLookup : CodeVal → Option String
  | CodeVal.num n => lookupCode n
  | CodeVal.str s => (SMB_ERROR_CODES.find? (fun p => toString p.1 == s)).map Prod.snd

/-- The string interpolation of the code value in the returned message. -/
def codeValStr : CodeVal → String
  | CodeVal.num n => toString n
  | CodeVal.str s => s

/-- The fall-through part of getReadableError after the table check has
    missed: helpers.ts lines 52-66. -/
def readableFallback (e : JsError) : String :=
  if e.code = some (CodeVal.str "ECONNREFUSED") then
    "Could not connect to SMB server - Connection refused"
  else if e.code = some (CodeVal.str "ETIMEDOUT") then
    "Connection to SMB server timed out"
  else if e.code = some (CodeVal.str "ENOTFOUND") then
    "SMB server not found - Check the server address"
  else if !msgTruthy e.message && natTruthy e.headerStatus then
    "SMB server returned an error (Code: " ++ toString (e.headerStatus.getD 0) ++ ")"
  else if msgTruthy e.message then e.message.getD ""
  else e.strRepr

/-- getReadableError from helpers.ts lines 44-67. The argument is
    optional: none models a null or undefined error value. -/
def getReadableError (err : Option JsError) : String :=
  match err with
  | none => "Unknown error occurred"
  | some e =>
    match derivedCode e with
    | some c =>
      if codeTruthy (some c) then
        match tableLookup c with
        | some msg => msg ++ " (Code: " ++ codeValStr c ++ ")"
        | none => readableFallback e
      else readableFallback e
    | none => readableFallback e

/-! ## The status-code table of the specification (section 6). -/

/-- Modelled from the spec: the Code / Meaning rows of the
    status-code-to-message table in section 6 of the specification,
    used only to compare the spec wording against the table embedded
    from the source. -/
def specStatusTable : List (Nat × String) := [
  (3221225525, "Access Denied"),
  (3221225506, "File/Path Not Found"),
  (3221225514, "Invalid Parameter"),
  (3221225485, "Sharing Violation"),
  (3221225524, "Object Name Invalid"),
  (3221225534, "Not Enough Quota"),
  (3221225581, "Logon Failure"),
  (3221226036, "Bad Network Name"),
  (2147942402, "Network Name Not Found"),
  (2147942405, "Network Path Not Found")]

/-- Whether the meaning a spec row gives for a code is kept as a prefix
    of the string the program table maps that code to. -/
def specMeaningKept (p : Nat × String) : Bool :=
  match lookupCode p.1 with
  | some s => p.2.data.isPrefixOf s.data
  | none => false

/-! ## Trigger node: change-type map and emit filter
    (src/nodes/Smb2Trigger/Smb2Trigger.node.ts lines 252-273). -/

/-- The six event values the change-type map can produce. -/
def watchEventTypes : List String :=
  ["fileCreated", "fileDeleted", "fileUpdated",
   "folderCreated", "folderDeleted", "folderUpdated"]

/-- The Watch For options offered for the specificFolder trigger in the
    node description (Smb2Trigger.node.ts lines 143-179). -/
def folderWatchOptions : List String :=
  ["fileCreated", "fileDeleted", "fileUpdated",
   "folderCreated", "folderDeleted", "folderUpdated", "watchFolderUpdated"]

/-- The eventMap record of the watchDirectory callback, keys 0x01-0x06;
    any other change type has no entry (undefined). -/
def eventMap (changeType : Nat) : Option String :=
  if changeType = 1 then some "fileCreated"
  else if changeType = 2 then some "fileDeleted"
  else if changeType = 3 then some "fileUpdated"
  else if changeType = 4 then some "folderCreated"
  else if changeType = 5 then some "folderDeleted"
  else if changeType = 6 then some "folderUpdated"
  else none

/-- The emit condition of the callback: this.emit runs exactly when
    eventMap[changeType] === event (event is the selected filter string;
    a strict comparison of undefined with a string is false). -/
def triggerEmits (changeType : Nat) (event : String) : Bool :=
  eventMap changeType == some event

/-! ## formatEntry (Smb2.node.ts lines 604-616).
    Only the fields the claims are about are modelled; name, path and
    the four timestamps delegate to host path and date utilities that
    are not part of this repository and carry no branching logic. -/

/-- The fields of a library DirectoryEntry that formatEntry branches on. -/
structure DirectoryEntry where
  filename : String
  type : String
  fileSize : Nat
deriving DecidableEq

/-- The claim-relevant fields of the json object formatEntry builds. -/
structure FormattedEntry where
  type : String
  size : Nat
deriving DecidableEq

/-- formatEntry: the type field is the ternary
    entry.type === Directory ? d : l, and size copies entry.fileSize. -/
def formatEntry (entry : DirectoryEntry) : FormattedEntry :=
  { type := if entry.type = "Directory" then "d" else "l",
    size := entry.fileSize }

/-! ## The renameFile monkey patch (helpers.ts lines 11-23). -/

/-- The named FilePipePrinterAccess rights the source combines into the
    desiredAccess mask. -/
inductive AccessRight where
  | Delete
  | WriteAttributes
  | ReadAttributes
  | ReadControl
  | Synchronize
deriving DecidableEq

/-- The desiredAccess mask built in helpers.ts lines 15-19: a bitwise or
    of five named rights, modelled as the list of rights combined. -/
def renameDesiredAccess : List AccessRight :=
  [AccessRight.Delete, AccessRight.WriteAttributes,
   AccessRight.ReadAttributes, AccessRight.ReadControl,
   AccessRight.Synchronize]

/-- The calls renameFile makes on the File object, in order. -/
inductive FileOp where
  | openFile (path : String) (desiredAccess : List AccessRight)
  | renameTo (newPath : String)
  | closeFile
deriving DecidableEq

/-- The call sequence of Tree.prototype.renameFile: open the source path
    with the desiredAccess mask, rename to the destination, close. -/
def renameFileCalls (path newPath : String) : List FileOp :=
  [FileOp.openFile path renameDesiredAccess,
   FileOp.renameTo newPath,
   FileOp.closeFile]

/-! ## The upload branch (Smb2.node.ts lines 479-536). -/

/-- The content actually written: the binary buffer or the text value. -/
inductive FileData where
  | binary (bytes : List Nat)
  | text (s : String)
deriving DecidableEq

/-- The content source of an upload item: with binaryData true the
    buffer returned by getBinaryDataBuffer for the named property
    (none when the host finds no such binary data), with binaryData
    false the fileContent parameter. -/
inductive UploadContent where
  | binaryProp (propertyName : String) (buffer : Option (List Nat))
  | text (fileContent : String)
deriving DecidableEq

/-- The parameters of one upload item, as read in the upload branch. -/
structure UploadParams where
  path : String
  content : UploadContent
  replace : Option Bool
  continueOnFail : Bool
deriving DecidableEq

/-- The calls the upload branch makes on the tree. -/
inductive TreeCall where
  | existsCheck (path : String)
  | removeFile (path : String)
  | createFile (path : String) (content : FileData)
deriving DecidableEq

/-- How an upload item that does not complete normally is reported. -/
inductive UploadOutcome where
  | ok
  | annotated (msg : String)
  | thrown (msg : String)
deriving DecidableEq

/-- Content validation of the upload branch: a missing binary buffer or
    a falsy (empty) fileContent string stops the item before any tree
    call. -/
def resolveContent : UploadContent → Option FileData
  | UploadContent.binaryProp _ (some b) => some (FileData.binary b)
  | UploadContent.binaryProp _ none => none
  | UploadContent.text s => if s = "" then none else some (FileData.text s)

/-- The shared continue-on-fail shape of the two content validation
    failures: annotate the item and continue, or throw. -/
def uploadAbort (cof : Bool) (msg : String) : UploadOutcome :=
  if cof then UploadOutcome.annotated msg else UploadOutcome.thrown msg

/-- The overwrite sequence and the final write, lines 509-517: when
    options.replace === true, call exists, then removeFile only when
    exists returned true, then createFile; otherwise createFile alone.
    The trace records the tree calls in order (ex is the value the
    exists call returns). -/
def uploadTransfer (p : UploadParams) (data : FileData) (ex : Bool) :
    List TreeCall × UploadOutcome :=
  if p.replace = some true then
    if ex then
      ([TreeCall.existsCheck p.path, TreeCall.removeFile p.path,
        TreeCall.createFile p.path data], UploadOutcome.ok)
    else
      ([TreeCall.existsCheck p.path, TreeCall.createFile p.path data],
       UploadOutcome.ok)
  else
    ([TreeCall.createFile p.path data], UploadOutcome.ok)

/-- The whole upload branch for one item: content checks (lines
    485-507), then the transfer (lines 509-519). -/
def uploadStep (p : UploadParams) (ex : Bool) : List TreeCall × UploadOutcome :=
  match p.content with
  | UploadContent.binaryProp prop none =>
    ([], uploadAbort p.continueOnFail ("Binary data not found for key " ++ prop))
  | UploadContent.binaryProp _ (some b) =>
    uploadTransfer p (FileData.binary b) ex
  | UploadContent.text s =>
    if s = "" then ([], uploadAbort p.continueOnFail "File content not found")
    else uploadTransfer p (FileData.text s) ex

/-! ## The per-item loop of execute (Smb2.node.ts lines 415-591). -/

/-- The five operations of the Smb2 node. -/
inductive Operation where
  | list
  | download
  | upload
  | delete
  | rename
deriving DecidableEq

/-- The message each per-item catch block prepends to the readable
    error. The list branch has no catch block and so no label. -/
def opFailLabel : Operation → String
  | Operation.list => ""
  | Operation.download => "Failed to download file: "
  | Operation.upload => "Failed to upload file: "
  | Operation.delete => "Failed to delete file: "
  | Operation.rename => "Failed to rename file: "

/-- The outcome of the underlying tree work for one input item: either
    it succeeds, or it throws an error whose readable translation is
    the given string. -/
inductive ItemResult where
  | success
  | failure (readable : String)
deriving DecidableEq

/-- One entry pushed to returnItems: the item index and the optional
    error annotation written to items[i].json.error. -/
structure OutItem where
  index : Nat
  error : Option String
deriving DecidableEq

/-- What propagates when the loop aborts: the error message, and the
    itemIndex attached to the NodeOperationError (none on the list
    path, which rethrows the raw library error without annotation). -/
structure AbortError where
  message : String
  itemIndex : Option Nat
deriving DecidableEq

/-- The loop body from item index i on, carrying the returnItems
    accumulator. A failing item is handled by the per-item catch of the
    download, upload, delete and rename branches: annotate and continue
    under continue-on-fail, else throw a NodeOperationError with the
    labelled message and the item index. The list branch has no
    per-item catch, so its failure propagates raw. -/
def processItemsGo (op : Operation) (cof : Bool) :
    Nat → List ItemResult → List OutItem → Except AbortError (List OutItem)
  | _, [], acc => Except.ok acc.reverse
  | i, ItemResult.success :: rest, acc =>
    processItemsGo op cof (i + 1) rest ({ index := i, error := none } :: acc)
  | i, ItemResult.failure m :: rest, acc =>
    match op with
    | Operation.list => Except.error { message := m, itemIndex := none }
    | _ =>
      if cof then
        processItemsGo op cof (i + 1) rest
          ({ index := i, error := some (opFailLabel op ++ m) } :: acc)
      else
        Except.error { message := opFailLabel op ++ m, itemIndex := some i }

/-- The whole loop over the input items. -/
def processItems (op : Operation) (cof : Bool) (results : List ItemResult) :
    Except AbortError (List OutItem) :=
  processItemsGo op cof 0 results []

/-- Direct recursive description of the loop output when every failure
    is annotated and processing continues: one output item per input
    item, failures carrying the labelled readable message. -/
def annotateAll (op : Operation) : Nat → List ItemResult → List OutItem
  | _, [] => []
  | i, ItemResult.success :: rest =>
    { index := i, error := none } :: annotateAll op (i + 1) rest
  | i, ItemResult.failure m :: rest =>
    { index := i, error := some (opFailLabel op ++ m) } :: annotateAll op (i + 1) rest

/-! ## Error-path cleanup (Smb2.node.ts lines 470-478 and 595-600). -/

/-- What reaches the caller after the outer catch block

    catch (error) \x7b if (client) \x7b await client.close(); \x7d throw error; \x7d

    runs: the close call is awaited before the rethrow, and when the
    close itself rejects inside the catch block, its error propagates
    in place of the primary one (JavaScript semantics of an exception
    raised inside a catch block). -/
structure CatchResult where
  closeAttempted : Bool
  propagated : String
deriving DecidableEq

/-- The outer catch block applied to a primary error, given whether the
    client was created and whether its close call fails (and with what
    message). -/
def outerCatch (clientPresent : Bool) (primary : String)
    (closeError : Option String) : CatchResult :=
  if clientPresent then
    match closeError with
    | some c => { closeAttempted := true, propagated := c }
    | none => { closeAttempted := true, propagated := primary }
  else
    { closeAttempted := false, propagated := primary }

/-- The finally block of the download branch: binaryFile.cleanup() runs
    in its own try, and a cleanup error is only passed to debug, so the
    outcome of the branch (success or the primary error) is returned
    unchanged whether or not cleanup fails. -/
def downloadFinally (outcome : Except String (List OutItem))
    (cleanupError : Option String) : Except String (List OutItem) :=
  match cleanupError with
  | some _ => outcome
  | none => outcome

/-! ## Claim C5: the status-code table against the spec table. -/

/-- Claim C5, counterexample: the claim says the program table maps
    3221225525 to exactly the meaning the spec table gives, namely
    Access Denied; the program table maps it to a longer string. -/
theorem C5_counterexample :
    lookupCode 3221225525 =
      some "Access Denied - Check your permissions for this file/folder" ∧
    ¬ lookupCode 3221225525 = some "Access Denied" := by
  decide

/-- Claim C5, amended: for every row of the spec status table the spec
    meaning is kept as a prefix of the string the program table maps
    that code to (several entries append guidance text after it), and
    the six POSIX-style alias codes map to the short strings Access
    Denied, Sharing Violation, Network Path Not Found, Network Name Not
    Found, Invalid Parameter and Network Error. -/
theorem C5_amended :
    specStatusTable.all specMeaningKept = true ∧
    lookupCode 5 = some "Access Denied" ∧
    lookupCode 32 = some "Sharing Violation" ∧
    lookupCode 53 = some "Network Path Not Found" ∧
    lookupCode 67 = some "Network Name Not Found" ∧
    lookupCode 87 = some "Invalid Parameter" ∧
    lookupCode 1314 = some "Network Error" := by
  decide

/-! ## Claim C4: the renameFile call sequence and access mask. -/

/-- Claim C4, counterexample: the claim says the desired-access mask
    consists of exactly the four rights delete, write-attributes,
    read-attributes and read-control, no more and no fewer; the source
    also ors in Synchronize (helpers.ts line 19). -/
theorem C4_counterexample :
    AccessRight.Synchronize ∈ renameDesiredAccess ∧
    AccessRight.Synchronize ∉
      [AccessRight.Delete, AccessRight.WriteAttributes,
       AccessRight.ReadAttributes, AccessRight.ReadControl] := by
  decide

/-- Claim C4, amended: renameFile opens the source path with a
    desired-access mask of exactly the five rights delete,
    write-attributes, read-attributes, read-control and synchronize,
    then issues the rename request naming the destination, then closes
    the handle, in that order. -/
theorem C4_amended (path newPath : String) :
    renameFileCalls path newPath =
      [FileOp.openFile path renameDesiredAccess,
       FileOp.renameTo newPath, FileOp.closeFile] ∧
    ∀ r : AccessRight, r ∈ renameDesiredAccess ↔
      (r = AccessRight.Delete ∨ r = AccessRight.WriteAttributes ∨
       r = AccessRight.ReadAttributes ∨ r = AccessRight.ReadControl ∨
       r = AccessRight.Synchronize) := by
  refine ⟨rfl, ?_⟩
  intro r
  cases r <;> simp [renameDesiredAccess]

/-! ## Claim C8: the type field of formatEntry. -/

/-- Claim C8: for every directory entry, the formatted type field is d
    when the entry type is Directory and l for every other entry type
    (regular files included), and no entry is ever labelled f. -/
theorem C8_entry_type_field :
    (∀ e : DirectoryEntry, e.type = "Directory" → (formatEntry e).type = "d") ∧
    (∀ e : DirectoryEntry, e.type ≠ "Directory" → (formatEntry e).type = "l") ∧
    (∀ e : DirectoryEntry, (formatEntry e).type ≠ "f") := by
  refine ⟨?_, ?_, ?_⟩
  · intro e h
    simp [formatEntry, h]
  · intro e h
    simp [formatEntry, h]
  · intro e
    simp only [formatEntry]
    split <;> decide

/-- Claim C8, witness: the theorem applied to a Directory entry and to
    a File entry. -/
theorem C8_witness :
    (formatEntry { filename := "a", type := "Directory", fileSize := 0 }).type = "d" ∧
    (formatEntry { filename := "b", type := "File", fileSize := 3 }).type = "l" :=
  ⟨C8_entry_type_field.1 _ rfl, C8_entry_type_field.2.1 _ (by decide)⟩

/-! ## Claims C2 and C10: the trigger emit filter. -/

/-- Claim C2: the change-type map sends every mapped raw code to one of
    the six event values fileCreated, fileDeleted, fileUpdated,
    folderCreated, folderDeleted, folderUpdated, and the callback emits
    exactly when the mapped type equals the selected event filter; a
    notification whose mapped type does not match (or whose code has no
    mapping) is dropped without emitting. -/
theorem C2_trigger_filter :
    (∀ c t, eventMap c = some t → t ∈ watchEventTypes) ∧
    (∀ c e, triggerEmits c e = true ↔ eventMap c = some e) := by
  constructor
  · intro c t h
    unfold eventMap at h
    split_ifs at h <;> simp_all [watchEventTypes]
  · intro c e
    simp [triggerEmits]

/-- Claim C2, witness: change type 3 maps to fileUpdated, which is one
    of the six event values, and a subscription filtering on
    fileUpdated emits for it while one filtering on fileCreated does
    not. -/
theorem C2_witness :
    "fileUpdated" ∈ watchEventTypes ∧
    triggerEmits 3 "fileUpdated" = true ∧
    ¬ triggerEmits 3 "fileCreated" = true :=
  ⟨C2_trigger_filter.1 3 "fileUpdated" (by decide),
   (C2_trigger_filter.2 3 "fileUpdated").mpr (by decide),
   fun h => absurd ((C2_trigger_filter.2 3 "fileCreated").mp h) (by decide)⟩

/-- Claim C10: watchFolderUpdated is offered as a Watch For option for
    the specificFolder trigger, but the change-type map never produces
    it, so no change notification ever makes the emit test succeed when
    that option is selected. -/
theorem C10_watchFolderUpdated_never_emits :
    "watchFolderUpdated" ∈ folderWatchOptions ∧
    ∀ c, triggerEmits c "watchFolderUpdated" = false := by
  constructor
  · decide
  · intro c
    unfold triggerEmits eventMap
    split_ifs <;> decide

/-! ## Claim C1: getReadableError. -/

/-- A concrete error carrying the POSIX alias code 5 and nothing else. -/
def errCodeFive : JsError where
  headerStatus := none
  code := some (CodeVal.num 5)
  errno := none
  message := none
  strRepr := "Error"

/-- A concrete connection-refused error that also carries a message. -/
def errRefusedWithMessage : JsError where
  headerStatus := none
  code := some (CodeVal.str "ECONNREFUSED")
  errno := none
  message := some "boom"
  strRepr := "Error"

/-- A concrete error whose header status is a table code. -/
def errHeaderNotFound : JsError where
  headerStatus := some 3221225506
  code := none
  errno := none
  message := none
  strRepr := "Error"

/-- A concrete error with only a plain message. -/
def errPlainMessage : JsError where
  headerStatus := none
  code := none
  errno := none
  message := some "plain failure"
  strRepr := "Error"

/-- A concrete timed-out transport error. -/
def errTimedOut : JsError where
  headerStatus := none
  code := some (CodeVal.str "ETIMEDOUT")
  errno := none
  message := none
  strRepr := "Error"

/-- A concrete host-not-found transport error. -/
def errHostNotFound : JsError where
  headerStatus := none
  code := some (CodeVal.str "ENOTFOUND")
  errno := none
  message := none
  strRepr := "Error"

/-- A concrete error with a truthy code the function does not
    recognise, plus a raw message. -/
def errUnknownCode : JsError where
  headerStatus := none
  code := some (CodeVal.str "EWHATEVER")
  errno := none
  message := some "boom"
  strRepr := "Error"

/-- Claim C1, counterexample: the claim says that for a code present in
    the table the function returns the exact table string, and that for
    a code absent from the table it falls back to the raw message or a
    generic unknown-error string. Both parts fail: an error carrying
    code 5 yields the table string with a Code suffix appended, and an
    error with code ECONNREFUSED and a raw message yields a fixed
    transport string instead of that message. -/
theorem C1_counterexample :
    lookupCode 5 = some "Access Denied" ∧
    getReadableError (some errCodeFive) = "Access Denied (Code: 5)" ∧
    ¬ getReadableError (some errCodeFive) = "Access Denied" ∧
    getReadableError (some errRefusedWithMessage) =
      "Could not connect to SMB server - Connection refused" := by
  refine ⟨by decide, by decide, by decide, by decide⟩

/-- Helper: a numeric code the table knows is never zero, hence truthy. -/
theorem lookupCode_ne_zero {n : Nat} {msg : String}
    (h : lookupCode n = some msg) : (n != 0) = true := by
  rcases eq_or_ne n 0 with h0 | h0
  · subst h0
    have hz : lookupCode 0 = none := by decide
    rw [hz] at h
    cases h
  · simpa using h0

/-- Helper: when the three transport-code checks miss and the message
    is present and non-empty, the fallback ladder returns the raw
    message. -/
theorem readableFallback_message (e : JsError) (m : String)
    (h1 : e.code ≠ some (CodeVal.str "ECONNREFUSED"))
    (h2 : e.code ≠ some (CodeVal.str "ETIMEDOUT"))
    (h3 : e.code ≠ some (CodeVal.str "ENOTFOUND"))
    (hm : e.message = some m) (hne : m ≠ "") :
    readableFallback e = m := by
  simp [readableFallback, h1, h2, h3, msgTruthy, hm, hne]

/-- Claim C1, amended: getReadableError is a total function into
    strings (so it never throws), returning Unknown error occurred on a
    null or undefined error; for every error whose derived code (first
    truthy of header status, code, errno) is a number found in the
    table it returns the table string followed by the parenthesised
    Code suffix, not the bare table string; the Node transport codes
    ECONNREFUSED, ETIMEDOUT and ENOTFOUND get their fixed descriptive
    strings; any other error whose derived code misses the table
    (including an unrecognised truthy code, or no code at all) falls
    back to its raw message when that is present and non-empty. -/
theorem C1_amended :
    getReadableError none = "Unknown error occurred" ∧
    (∀ (e : JsError) (n : Nat) (msg : String),
      derivedCode e = some (CodeVal.num n) → lookupCode n = some msg →
      getReadableError (some e) = msg ++ " (Code: " ++ toString n ++ ")") ∧
    (∀ (e : JsError), e.headerStatus = none → e.errno = none →
      e.code = some (CodeVal.str "ECONNREFUSED") →
      getReadableError (some e) =
        "Could not connect to SMB server - Connection refused") ∧
    (∀ (e : JsError), e.headerStatus = none → e.errno = none →
      e.code = some (CodeVal.str "ETIMEDOUT") →
      getReadableError (some e) = "Connection to SMB server timed out") ∧
    (∀ (e : JsError), e.headerStatus = none → e.errno = none →
      e.code = some (CodeVal.str "ENOTFOUND") →
      getReadableError (some e) =
        "SMB server not found - Check the server address") ∧
    (∀ (e : JsError) (m : String),
      (∀ c, derivedCode e = some c → tableLookup c = none) →
      e.code ≠ some (CodeVal.str "ECONNREFUSED") →
      e.code ≠ some (CodeVal.str "ETIMEDOUT") →
      e.code ≠ some (CodeVal.str "ENOTFOUND") →
      e.message = some m → m ≠ "" → getReadableError (some e) = m) := by
  refine ⟨rfl, ?_, ?_, ?_, ?_, ?_⟩
  · intro e n msg hd hl
    have hn : (n != 0) = true := lookupCode_ne_zero hl
    simp only [getReadableError]
    rw [hd]
    simp [codeTruthy, hn, tableLookup, hl, codeValStr]
  · intro e h1 h2 h3
    have hd : derivedCode e = some (CodeVal.str "ECONNREFUSED") := by
      simp [derivedCode, h1, h2, h3, natTruthy, codeTruthy]
    have ht : tableLookup (CodeVal.str "ECONNREFUSED") = none := by decide
    simp only [getReadableError]
    rw [hd]
    simp [codeTruthy, ht, readableFallback, h3]
  · intro e h1 h2 h3
    have hd : derivedCode e = some (CodeVal.str "ETIMEDOUT") := by
      simp [derivedCode, h1, h2, h3, natTruthy, codeTruthy]
    have ht : tableLookup (CodeVal.str "ETIMEDOUT") = none := by decide
    simp only [getReadableError]
    rw [hd]
    simp [codeTruthy, ht, readableFallback, h3]
  · intro e h1 h2 h3
    have hd : derivedCode e = some (CodeVal.str "ENOTFOUND") := by
      simp [derivedCode, h1, h2, h3, natTruthy, codeTruthy]
    have ht : tableLookup (CodeVal.str "ENOTFOUND") = none := by decide
    simp only [getReadableError]
    rw [hd]
    simp [codeTruthy, ht, readableFallback, h3]
  · intro e m hmiss h1 h2 h3 hm hne
    have hfb : readableFallback e = m :=
      readableFallback_message e m h1 h2 h3 hm hne
    simp only [getReadableError]
    rcases hd : derivedCode e with _ | c
    · simpa using hfb
    · dsimp only
      rw [hmiss c hd]
      split <;> simpa using hfb

/-- Claim C1, witness: the amended theorem applied to concrete errors,
    one per hypothesis-carrying clause: a table code in the header
    status, each of the three transport codes, an unrecognised truthy
    code with a raw message, and a bare message with no code. -/
theorem C1_witness :
    getReadableError (some errHeaderNotFound) =
      "File/Path Not Found" ++ " (Code: " ++ toString 3221225506 ++ ")" ∧
    getReadableError (some errRefusedWithMessage) =
      "Could not connect to SMB server - Connection refused" ∧
    getReadableError (some errTimedOut) = "Connection to SMB server timed out" ∧
    getReadableError (some errHostNotFound) =
      "SMB server not found - Check the server address" ∧
    getReadableError (some errUnknownCode) = "boom" ∧
    getReadableError (some errPlainMessage) = "plain failure" :=
  ⟨C1_amended.2.1 _ 3221225506 "File/Path Not Found" (by decide) (by decide),
   C1_amended.2.2.1 _ rfl rfl rfl,
   C1_amended.2.2.2.1 _ rfl rfl rfl,
   C1_amended.2.2.2.2.1 _ rfl rfl rfl,
   C1_amended.2.2.2.2.2 _ "boom"
     (by
       intro c hc
       rw [show derivedCode errUnknownCode = some (CodeVal.str "EWHATEVER")
         from by decide] at hc
       cases hc
       decide)
     (by decide) (by decide) (by decide) rfl (by decide),
   C1_amended.2.2.2.2.2 _ "plain failure"
     (by
       intro c hc
       rw [show derivedCode errPlainMessage = none from by decide] at hc
       cases hc)
     (by decide) (by decide) (by decide) rfl (by decide)⟩

/-! ## Claim C3: the upload overwrite sequence. -/

/-- Claim C3: for every upload item whose content resolves (the binary
    buffer is present, or the text content is non-empty, as claim C9
    covers), the overwrite option set to true makes the branch call
    exists, then removeFile exactly when exists returned true, then
    createFile, in that order as separate tree calls; with the option
    false or unset it calls createFile directly, with no exists or
    removeFile call. -/
theorem C3_overwrite_sequence (path : String) (content : UploadContent)
    (replace : Option Bool) (cof : Bool) (ex : Bool) (d : FileData)
    (hc : resolveContent content = some d) :
    (replace = some true →
      (uploadStep ⟨path, content, replace, cof⟩ ex).1 =
        if ex then
          [TreeCall.existsCheck path, TreeCall.removeFile path,
           TreeCall.createFile path d]
        else
          [TreeCall.existsCheck path, TreeCall.createFile path d]) ∧
    (replace ≠ some true →
      (uploadStep ⟨path, content, replace, cof⟩ ex).1 =
        [TreeCall.createFile path d]) := by
  rcases content with ⟨prop, _ | b⟩ | s
  · cases hc
  · simp only [resolveContent, Option.some.injEq] at hc
    subst hc
    constructor
    · intro hr
      subst hr
      cases ex <;> simp [uploadStep, uploadTransfer]
    · intro hr
      simp [uploadStep, uploadTransfer, hr]
  · by_cases hs : s = ""
    · subst hs
      simp [resolveContent] at hc
    · simp only [resolveContent, if_neg hs, Option.some.injEq] at hc
      subst hc
      constructor
      · intro hr
        subst hr
        cases ex <;> simp [uploadStep, uploadTransfer, hs]
      · intro hr
        simp [uploadStep, uploadTransfer, hs, hr]

/-- Claim C3, witness: the theorem applied to a concrete text upload,
    with overwrite set and the path existing, with overwrite set and
    the path absent, and with the option unset. -/
theorem C3_witness :
    (uploadStep ⟨"/f.txt", UploadContent.text "hello", some true, false⟩ true).1 =
      [TreeCall.existsCheck "/f.txt", TreeCall.removeFile "/f.txt",
       TreeCall.createFile "/f.txt" (FileData.text "hello")] ∧
    (uploadStep ⟨"/f.txt", UploadContent.text "hello", some true, false⟩ false).1 =
      [TreeCall.existsCheck "/f.txt",
       TreeCall.createFile "/f.txt" (FileData.text "hello")] ∧
    (uploadStep ⟨"/f.txt", UploadContent.text "hello", none, false⟩ true).1 =
      [TreeCall.createFile "/f.txt" (FileData.text "hello")] := by
  refine ⟨?_, ?_, ?_⟩
  · have h := (C3_overwrite_sequence "/f.txt" (UploadContent.text "hello")
      (some true) false true (FileData.text "hello") (by decide)).1 rfl
    simpa using h
  · have h := (C3_overwrite_sequence "/f.txt" (UploadContent.text "hello")
      (some true) false false (FileData.text "hello") (by decide)).1 rfl
    simpa using h
  · exact (C3_overwrite_sequence "/f.txt" (UploadContent.text "hello")
      none false true (FileData.text "hello") (by decide)).2 (by decide)

/-! ## Claim C9: empty text content. -/

/-- Claim C9: an upload item with binaryData false and an empty
    fileContent makes no tree call at all (in particular it never calls
    createFile, so an empty text file cannot be uploaded through the
    text path) and reports File content not found, thrown when
    continue-on-fail is off and recorded on the item when it is on;
    this holds whatever the overwrite option says. -/
theorem C9_empty_text_upload (path : String) (replace : Option Bool)
    (cof : Bool) (ex : Bool) :
    (uploadStep ⟨path, UploadContent.text "", replace, cof⟩ ex).1 = [] ∧
    (uploadStep ⟨path, UploadContent.text "", replace, cof⟩ ex).2 =
      (if cof then UploadOutcome.annotated "File content not found"
       else UploadOutcome.thrown "File content not found") := by
  constructor
  · simp [uploadStep]
  · simp [uploadStep, uploadAbort]

/-! ## Claim C6: per-item continue-on-fail policy of the execute loop. -/

/-- Helper: with continue-on-fail on and any operation other than list,
    the loop annotates every failing item and processes the whole
    input, whatever the accumulator and start index. -/
theorem processItemsGo_cof (op : Operation) (hop : op ≠ Operation.list) :
    ∀ (rest : List ItemResult) (i : Nat) (acc : List OutItem),
      processItemsGo op true i rest acc =
        Except.ok (acc.reverse ++ annotateAll op i rest) := by
  intro rest
  induction rest with
  | nil =>
    intro i acc
    simp [processItemsGo, annotateAll]
  | cons r rest ih =>
    intro i acc
    cases r with
    | success =>
      simp [processItemsGo, annotateAll, ih]
    | failure m =>
      cases op with
      | list => exact absurd rfl hop
      | download => simp [processItemsGo, annotateAll, ih]
      | upload => simp [processItemsGo, annotateAll, ih]
      | delete => simp [processItemsGo, annotateAll, ih]
      | rename => simp [processItemsGo, annotateAll, ih]

/-- Helper: with continue-on-fail off and any operation other than
    list, the first failure aborts with the labelled message and the
    index of the failing item. -/
theorem processItemsGo_abort (op : Operation) (hop : op ≠ Operation.list)
    (m : String) (rest : List ItemResult) :
    ∀ (pre : List ItemResult), (∀ x ∈ pre, x = ItemResult.success) →
      ∀ (i : Nat) (acc : List OutItem),
        processItemsGo op false i (pre ++ ItemResult.failure m :: rest) acc =
          Except.error { message := opFailLabel op ++ m,
                         itemIndex := some (i + pre.length) } := by
  intro pre
  induction pre with
  | nil =>
    intro _ i acc
    cases op with
    | list => exact absurd rfl hop
    | download => simp [processItemsGo]
    | upload => simp [processItemsGo]
    | delete => simp [processItemsGo]
    | rename => simp [processItemsGo]
  | cons x pre ih =>
    intro hall i acc
    have hx : x = ItemResult.success := hall x (List.mem_cons_self x pre)
    subst hx
    have hrec := ih (fun y hy => hall y (List.mem_cons_of_mem _ hy)) (i + 1)
      ({ index := i, error := none } :: acc)
    have harith : i + 1 + pre.length = i + (pre.length + 1) := by omega
    simp only [List.cons_append, processItemsGo, List.length_cons]
    rw [← harith]
    exact hrec

/-- Helper: the list branch has no per-item catch, so the first failure
    aborts with the raw message and no item index, continue-on-fail or
    not. -/
theorem processItemsGo_list (cof : Bool) (m : String) (rest : List ItemResult) :
    ∀ (pre : List ItemResult), (∀ x ∈ pre, x = ItemResult.success) →
      ∀ (i : Nat) (acc : List OutItem),
        processItemsGo Operation.list cof i (pre ++ ItemResult.failure m :: rest) acc =
          Except.error { message := m, itemIndex := none } := by
  intro pre
  induction pre with
  | nil =>
    intro _ i acc
    simp [processItemsGo]
  | cons x pre ih =>
    intro hall i acc
    have hx : x = ItemResult.success := hall x (List.mem_cons_self x pre)
    subst hx
    simp only [List.cons_append, processItemsGo]
    exact ih (fun y hy => hall y (List.mem_cons_of_mem _ hy)) (i + 1) _

/-- Claim C6, counterexample: the claim covers the list operation too,
    but a failing list item aborts the whole batch even with
    continue-on-fail enabled, instead of being annotated and skipped:
    the list branch of the loop has no per-item catch block. -/
theorem C6_counterexample :
    processItems Operation.list true
      [ItemResult.failure "File/Path Not Found (Code: 3221225506)"] =
      Except.error { message := "File/Path Not Found (Code: 3221225506)",
                     itemIndex := none } := by
  rfl

/-- Claim C6, amended: for the download, upload, delete and rename
    operations the claimed policy holds: with continue-on-fail enabled
    a failure at item i annotates item i with the labelled readable
    message and processing continues through the remaining items (the
    output has one entry per input item); with it disabled the first
    failure aborts the batch with a single labelled error carrying that
    item index. The list operation is the exception: any failure aborts
    the whole batch with the raw error and no item index, even when
    continue-on-fail is enabled. -/
theorem C6_amended :
    (∀ (op : Operation), op ≠ Operation.list → ∀ (results : List ItemResult),
      processItems op true results = Except.ok (annotateAll op 0 results)) ∧
    (∀ (op : Operation), op ≠ Operation.list →
      ∀ (m : String) (rest pre : List ItemResult),
        (∀ x ∈ pre, x = ItemResult.success) →
        processItems op false (pre ++ ItemResult.failure m :: rest) =
          Except.error { message := opFailLabel op ++ m,
                         itemIndex := some pre.length }) ∧
    (∀ (cof : Bool) (m : String) (rest pre : List ItemResult),
      (∀ x ∈ pre, x = ItemResult.success) →
      processItems Operation.list cof (pre ++ ItemResult.failure m :: rest) =
        Except.error { message := m, itemIndex := none }) := by
  refine ⟨?_, ?_, ?_⟩
  · intro op hop results
    simpa using processItemsGo_cof op hop results 0 []
  · intro op hop m rest pre hall
    simpa using processItemsGo_abort op hop m rest pre hall 0 []
  · intro cof m rest pre hall
    exact processItemsGo_list cof m rest pre hall 0 []

/-- Claim C6, witness: the amended theorem applied to concrete batches:
    a download batch with a failing first item and a succeeding second
    one under continue-on-fail, an upload batch aborting at its second
    item without continue-on-fail, and a list batch aborting under
    continue-on-fail. -/
theorem C6_witness :
    processItems Operation.download true
      [ItemResult.failure "x", ItemResult.success] =
      Except.ok [{ index := 0, error := some "Failed to download file: x" },
                 { index := 1, error := none }] ∧
    processItems Operation.upload false
      [ItemResult.success, ItemResult.failure "y"] =
      Except.error { message := "Failed to upload file: y", itemIndex := some 1 } ∧
    processItems Operation.list true [ItemResult.failure "z"] =
      Except.error { message := "z", itemIndex := none } := by
  refine ⟨?_, ?_, ?_⟩
  · have h := C6_amended.1 Operation.download (by decide)
      [ItemResult.failure "x", ItemResult.success]
    rw [h]
    rfl
  · have h := C6_amended.2.1 Operation.upload (by decide) "y" []
      [ItemResult.success] (by intro x hx; simpa using hx)
    simpa using h
  · have h := C6_amended.2.2 true "z" [] [] (by intro x hx; cases hx)
    simpa using h

/-! ## Claim C7: cleanup on error paths. -/

/-- Claim C7, counterexample: the claim says a failure during cleanup
    never replaces the primary error, but when client.close() fails
    inside the outer catch block its error propagates in place of the
    primary one. -/
theorem C7_counterexample :
    (outerCatch true "Failed to upload file: Access Denied (Code: 5)"
      (some "close failed")).propagated = "close failed" ∧
    ¬ (outerCatch true "Failed to upload file: Access Denied (Code: 5)"
      (some "close failed")).propagated =
        "Failed to upload file: Access Denied (Code: 5)" := by
  refine ⟨rfl, by decide⟩

/-- Claim C7, amended: on every error path the cleanup does run before
    the error propagates: the outer catch awaits client.close whenever
    the client exists, and the download branch removes its temporary
    file in a finally block whose own failure is caught and only
    logged, never changing the branch outcome; when client.close
    succeeds the primary error propagates unchanged, but when
    client.close itself fails inside the catch block its error
    propagates in place of the primary one, so for connection close the
    claimed never-replace guarantee does not hold. -/
theorem C7_amended :
    (∀ (p : String) (c : Option String),
      (outerCatch true p c).closeAttempted = true) ∧
    (∀ (p : String), (outerCatch true p none).propagated = p) ∧
    (∀ (o : Except String (List OutItem)) (ce : Option String),
      downloadFinally o ce = o) ∧
    (∀ (p c : String), (outerCatch true p (some c)).propagated = c) := by
  refine ⟨?_, ?_, ?_, ?_⟩
  · intro p c
    cases c <;> rfl
  · intro p
    rfl
  · intro o ce
    cases ce <;> rfl
  · intro p c
    rfl

/-! ## Closed instantiations of the remaining universally quantified
    claim theorems. -/

/-- Claim C4, witness: the amended theorem applied to concrete paths
    and to the read-control right. -/
theorem C4_witness :
    renameFileCalls "/old.txt" "/new.txt" =
      [FileOp.openFile "/old.txt" renameDesiredAccess,
       FileOp.renameTo "/new.txt", FileOp.closeFile] ∧
    (AccessRight.ReadControl ∈ renameDesiredAccess ↔
      (AccessRight.ReadControl = AccessRight.Delete ∨
       AccessRight.ReadControl = AccessRight.WriteAttributes ∨
       AccessRight.ReadControl = AccessRight.ReadAttributes ∨
       AccessRight.ReadControl = AccessRight.ReadControl ∨
       AccessRight.ReadControl = AccessRight.Synchronize)) :=
  ⟨(C4_amended "/old.txt" "/new.txt").1,
   (C4_amended "/old.txt" "/new.txt").2 AccessRight.ReadControl⟩

/-- Claim C7, witness: the amended theorem applied to a concrete
    primary error, a failing temp-file cleanup and a failing close. -/
theorem C7_witness :
    (outerCatch true "primary" none).closeAttempted = true ∧
    (outerCatch true "primary" none).propagated = "primary" ∧
    downloadFinally (Except.error "primary") (some "cleanup failed") =
      Except.error "primary" ∧
    (outerCatch true "primary" (some "close failed")).propagated = "close failed" :=
  ⟨C7_amended.1 "primary" none,
   C7_amended.2.1 "primary",
   C7_amended.2.2.1 (Except.error "primary") (some "cleanup failed"),
   C7_amended.2.2.2 "primary" "close failed"⟩

/-- Claim C9, witness: the theorem applied to a concrete empty text
    upload with overwrite requested and continue-on-fail enabled. -/
theorem C9_witness :
    (uploadStep ⟨"/e.txt", UploadContent.text "", some true, true⟩ true).1 = [] ∧
    (uploadStep ⟨"/e.txt", UploadContent.text "", some true, true⟩ true).2 =
      UploadOutcome.annotated "File content not found" := by
  have h := C9_empty_text_upload "/e.txt" (some true) true true
  exact ⟨h.1, by simpa using h.2⟩

/-- Claim C10, witness: the theorem applied to change type 3. -/
theorem C10_witness :
    "watchFolderUpdated" ∈ folderWatchOptions ∧
    triggerEmits 3 "watchFolderUpdated" = false :=
  ⟨C10_watchFolderUpdated_never_emits.1,
   C10_watchFolderUpdated_never_emits.2 3⟩

end Smb2
